import Mathlib

/-!
Verification of the R6-API Ubisoft authentication / token-cache module.

The repository has three source variants of the login manager:
* `src/http/ubi-auth.ts` — class `UbiLoginManager` with an in-memory cache
  (fields `token`, `sessionId`, `lastLoginTime`), a 30-minute staleness rule
  (`shouldReauthenticate`), `getToken` and `requestLogin`.
* `unnamed/part_000` — `UbiLoginManager.Login` that always requests and saves,
  plus `RequestLogin`.
* `unnamed/part_001` — two sub-variants with a per-variant on-disk cache
  (`loadToken` / `saveToken`, a 5-minute pre-expiry buffer) and `Login` that
  consults the cache first; the first sub-variant's `RequestLogin`
  additionally defaults a missing expiration to now + 30 minutes.

Times are modelled as integer milliseconds since the epoch (JS `Date.now()` /
`new Date(s).getTime()`).  JSON (de)serialization of the credential record is
modelled as exact (the persisted file holds an `Option Credential`); the
validity filtering performed by `loadToken` is the code under verification.
-/

namespace R6API

/-- 30 minutes in milliseconds, as written in the source (`30 * 60 * 1000`). -/
def minutes30 : Int := 30 * 60 * 1000

/-- 5 minutes in milliseconds, as written in the source (`5 * 60 * 1000`). -/
def minutes5 : Int := 5 * 60 * 1000

/-- The two application-identifier variants (`UbiAppId.v2`, `UbiAppId.v3`). -/
inductive UbiAppId where
  | v2
  | v3
deriving DecidableEq, Repr

/-- A credential as produced by a successful login and persisted to disk:
ticket (the opaque auth token), session id, and the optional expiration
timestamp (ms since epoch; `none` when the field is absent or falsy). -/
structure Credential where
  ticket : String
  sessionId : String
  expiration : Option Int
deriving DecidableEq, Repr

/-- The wire-level HTTP response of the session-creation endpoint: status,
the optional `Ubi-SessionId` response header, and the body fields the code
reads (`ticket`, `expiration`). -/
structure HttpResponse where
  status : Nat
  sessionHeader : Option String
  ticket : String
  expiration : Option Int
deriving DecidableEq, Repr

/-- Outcome of the underlying HTTP exchange: either a response arrived
(any status; axios resolves it only when 2xx, otherwise rejects with an
`AxiosError` carrying `response.status`), or no response arrived at all
(network failure: axios rejects with an error that has no `response`). -/
inductive WireOutcome where
  | response (r : HttpResponse)
  | networkError
deriving DecidableEq, Repr

/-- The error kinds a login attempt can surface.  `unknown s` stands for the
fallback on an unrecognised non-2xx status: `ubi-auth.ts` throws
`Login failed with status s`, while `part_000` / `part_001` rethrow the
`AxiosError` whose `response.status` is `s`; both carry the status `s` and
none of the named kinds.  `networkFailure` is the rethrown axios error that
has no response attached. -/
inductive UbiError where
  | unauthorized
  | challengeRequired
  | rateLimited
  | unknown (status : Nat)
  | protocolViolation
  | networkFailure
deriving DecidableEq, Repr

/-- Axios's default `validateStatus`: a response resolves iff its status is
in [200, 300). -/
def is2xx (s : Nat) : Bool := 200 ≤ s && s < 300

/-- The status switch shared by all three `RequestLogin` catch blocks:
401, 409, 429 map to the named kinds, any other status to `unknown`. -/
def mapStatus (s : Nat) : UbiError :=
  match s with
  | 401 => .unauthorized
  | 409 => .challengeRequired
  | 429 => .rateLimited
  | _ => .unknown s

/-- `UbiLoginManager.requestLogin` of `ubi-auth.ts` (structurally identical
to `RequestLogin` of `part_000` and of the second `part_001` sub-variant,
which differ only in the thrown messages):
on a resolved (2xx) response it requires a non-empty `Ubi-SessionId` header
(`if (!sessionId) throw ...`, so the empty string also fails) and returns
`{...response.data, sessionId}`; on a rejected call it maps the status when
a response is present and rethrows the raw error otherwise. -/
def requestLogin (w : WireOutcome) : Except UbiError Credential :=
  match w with
  | .networkError => .error .networkFailure
  | .response r =>
    if is2xx r.status then
      match r.sessionHeader with
      | none => .error .protocolViolation
      | some sid =>
        if sid = "" then .error .protocolViolation
        else .ok { ticket := r.ticket, sessionId := sid, expiration := r.expiration }
    else .error (mapStatus r.status)

/-- `RequestLogin` of the first `part_001` sub-variant: as `requestLogin`,
but a missing (falsy) `response.data.expiration` is replaced by the
fabricated default `Date.now() + 30 * 60 * 1000`. -/
def RequestLoginP1 (now : Int) (w : WireOutcome) : Except UbiError Credential :=
  match w with
  | .networkError => .error .networkFailure
  | .response r =>
    if is2xx r.status then
      match r.sessionHeader with
      | none => .error .protocolViolation
      | some sid =>
        if sid = "" then .error .protocolViolation
        else
          .ok { ticket := r.ticket, sessionId := sid,
                expiration := some (r.expiration.getD (now + minutes30)) }
    else .error (mapStatus r.status)

/-- JS truthiness of an optional string: `!x` holds when the field is
`undefined` or the empty string. -/
def strFalsy : Option String → Bool
  | none => true
  | some s => s = ""

/-- JS truthiness of an optional number: `!x` holds when the field is
`undefined` or `0`. -/
def numFalsy : Option Int → Bool
  | none => true
  | some n => n = 0

/-- In-memory state of `UbiLoginManager` in `ubi-auth.ts`: the private
fields `token`, `sessionId`, `lastLoginTime`, plus a ghost field recording
which `Ubi-AppId` the login call that produced the cached pair used (the
code itself does not store it — that is exactly what claim C9 is about). -/
structure MgrState where
  token : Option String
  sessionId : Option String
  lastLoginTime : Option Int
  lastAppId : Option UbiAppId
deriving DecidableEq, Repr

/-- `UbiLoginManager.shouldReauthenticate`: re-authenticate when the token,
session id, or login time is falsy, or more than 30 minutes have passed. -/
def shouldReauthenticate (s : MgrState) (now : Int) : Bool :=
  strFalsy s.token || strFalsy s.sessionId || numFalsy s.lastLoginTime ||
    decide (now - s.lastLoginTime.getD 0 > minutes30)

/-- Result of a `getToken` call: the returned pair or thrown error, the
manager state afterwards, and how many remote login requests were issued. -/
structure GetTokenResult where
  result : Except UbiError (String × String)
  state : MgrState
  remoteCalls : Nat
deriving Repr

/-- `UbiLoginManager.getToken` of `ubi-auth.ts`: when `shouldReauthenticate`,
issue one `requestLogin`; on success overwrite the three cached fields
(`lastLoginTime := Date.now()`) and fall through; on failure the thrown
error propagates and no field is written.  Otherwise return the cached
pair with zero remote calls.  (The `if (!result) throw` guard is dead in
this model: `requestLogin` either returns a value or throws.) -/
def getToken (s : MgrState) (appId : UbiAppId) (now : Int) (w : WireOutcome) :
    GetTokenResult :=
  if shouldReauthenticate s now then
    match requestLogin w with
    | .error e => { result := .error e, state := s, remoteCalls := 1 }
    | .ok c =>
      { result := .ok (c.ticket, c.sessionId),
        state := { token := some c.ticket, sessionId := some c.sessionId,
                   lastLoginTime := some now, lastAppId := some appId },
        remoteCalls := 1 }
  else
    { result := .ok (s.token.getD "", s.sessionId.getD ""), state := s,
      remoteCalls := 0 }

/-- `loadToken` of `part_001` (both sub-variants are textually identical):
parse the per-variant file and return the token only when
`token.expiration && new Date(token.expiration).getTime() > Date.now() + 5*60*1000`;
a missing or unreadable file, a falsy expiration, or a near/past expiration
all yield `null`. -/
def loadToken (file : Option Credential) (now : Int) : Option Credential :=
  match file with
  | none => none
  | some t =>
    match t.expiration with
    | none => none
    | some e => if now + minutes5 < e then some t else none

/-- `saveToken` of `part_001`: overwrite the per-variant file with the
serialized credential. -/
def saveToken (file : Option Credential) (c : Credential) : Option Credential :=
  some c

/-- Inputs of one `Login()` run of the first `part_001` sub-variant: the two
on-disk files and the wire outcome each variant's request would see. -/
structure LoginEnv where
  fileV2 : Option Credential
  fileV3 : Option Credential
  wireV2 : WireOutcome
  wireV3 : WireOutcome
deriving DecidableEq, Repr

/-- Observable trace of one `Login()` run: final file contents, number of
remote requests per variant, the error caught and logged by the `catch`
block (`console.error`), and the error thrown to `Login`'s caller. -/
structure LoginTrace where
  fileV2 : Option Credential
  fileV3 : Option Credential
  callsV2 : Nat
  callsV3 : Nat
  consoleError : Option UbiError
  thrown : Option UbiError
deriving DecidableEq, Repr

/-- One variant's step inside `Login()` of the first `part_001` sub-variant:
`loadToken`; when `null`, one `RequestLogin` and, when it returned a value,
`saveToken`.  Yields (new file contents, remote-call count, thrown error). -/
def processVariant (file : Option Credential) (now : Int) (w : WireOutcome) :
    Option Credential × Nat × Option UbiError :=
  match loadToken file now with
  | some _ => (file, 0, none)
  | none =>
    match RequestLoginP1 now w with
    | .error e => (file, 1, some e)
    | .ok c => (saveToken file c, 1, none)

/-- `UbiLoginManager.Login` of the first `part_001` sub-variant: process v2,
then v3, inside a `try` whose `catch` logs the error (`console.error`) and
returns normally — an error in the v2 step skips the v3 step entirely, and
no error ever reaches `Login`'s caller (`thrown` is always `none`). -/
def LoginP1 (env : LoginEnv) (now : Int) : LoginTrace :=
  let p2 := processVariant env.fileV2 now env.wireV2
  match p2.2.2 with
  | some e =>
    { fileV2 := p2.1, fileV3 := env.fileV3, callsV2 := p2.2.1, callsV3 := 0,
      consoleError := some e, thrown := none }
  | none =>
    let p3 := processVariant env.fileV3 now env.wireV3
    { fileV2 := p2.1, fileV3 := p3.1, callsV2 := p2.2.1, callsV3 := p3.2.1,
      consoleError := p3.2.2, thrown := none }

/-- Modelled from the spec: the validity formula of claim C1 as written —
a cached credential is valid when present and either (a) it carries no
expiration timestamp and was obtained within the last 30 minutes, or
(b) it carries an expiration timestamp and now + 5 minutes < expiration. -/
def specValidC1 (present : Bool) (expiration : Option Int)
    (obtainedAt : Option Int) (now : Int) : Bool :=
  present &&
    match expiration with
    | none =>
      match obtainedAt with
      | some t => decide (now - t ≤ minutes30)
      | none => false
    | some e => decide (now + minutes5 < e)

/-- Did a login attempt fail (throw), in any of the variants? -/
def isFailure {α : Type} : Except UbiError α → Bool
  | .error _ => true
  | .ok _ => false

/-- Helper: the shape of a successful `RequestLoginP1` on a delivered response. -/
lemma requestLoginP1_ok (now : Int) (r : HttpResponse) (c : Credential)
    (h : RequestLoginP1 now (.response r) = .ok c) :
    is2xx r.status = true ∧ r.sessionHeader = some c.sessionId ∧
    c.ticket = r.ticket ∧ c.expiration = some (r.expiration.getD (now + minutes30)) := by
  simp only [RequestLoginP1] at h
  by_cases h2 : is2xx r.status
  · rw [if_pos h2] at h
    cases hsid : r.sessionHeader with
    | none => rw [hsid] at h; simp at h
    | some sid =>
      rw [hsid] at h
      by_cases hs : sid = ""
      · simp [hs] at h
      · simp [hs] at h
        subst h
        exact ⟨h2, rfl, rfl, rfl⟩
  · rw [if_neg h2] at h; simp at h

/-- C1 counterexample: a file-cached credential without an expiration
timestamp, saved one minute before the load (so clause (a) of the claimed
validity rule holds), is nonetheless rejected by `loadToken`, and the
`Login` cache path then issues a remote login.  The claimed "exactly when"
is therefore false for the on-disk cache. -/
theorem C1_counterexample :
    specValidC1 true none (some 1740000) 1800000 = true ∧
    loadToken (some { ticket := "t", sessionId := "s", expiration := none }) 1800000 = none ∧
    (processVariant (some { ticket := "t", sessionId := "s", expiration := none }) 1800000
      (.response { status := 200, sessionHeader := some "sid", ticket := "u", expiration := none })).2.1 = 1 := by
  refine ⟨by decide, rfl, rfl⟩

/-- C1 (amended): validity of a cached credential, as the code decides it.
In-memory cache (`ubi-auth.ts`): valid iff token and sessionId are present
and non-empty, a non-zero login time is recorded, and no more than
30 minutes have passed — an in-memory credential never carries an
expiration.  On-disk cache (`part_001`): valid iff an expiration timestamp
is present and `now + 5 min < expiration` — a stored credential without an
expiration is never valid, regardless of how recently it was obtained.
A remote login is issued by a variant's `Login` step exactly when this
validity test fails. -/
theorem C1_validity :
    (∀ (s : MgrState) (now : Int),
      shouldReauthenticate s now = false ↔
        ∃ tok sid t, s.token = some tok ∧ tok ≠ "" ∧ s.sessionId = some sid ∧ sid ≠ "" ∧
          s.lastLoginTime = some t ∧ t ≠ 0 ∧ now - t ≤ minutes30) ∧
    (∀ (f : Option Credential) (now : Int),
      (loadToken f now).isSome = true ↔
        ∃ c e, f = some c ∧ c.expiration = some e ∧ now + minutes5 < e) ∧
    (∀ (file : Option Credential) (now : Int) (w : WireOutcome),
      (processVariant file now w).2.1 = if (loadToken file now).isSome then 0 else 1) := by
  refine ⟨?_, ?_, ?_⟩
  · intro s now
    obtain ⟨tok, sid, llt, app⟩ := s
    cases tok with
    | none => simp [shouldReauthenticate, strFalsy]
    | some tokv =>
      cases sid with
      | none => simp [shouldReauthenticate, strFalsy]
      | some sidv =>
        cases llt with
        | none => simp [shouldReauthenticate, strFalsy, numFalsy]
        | some t =>
          simp only [shouldReauthenticate, strFalsy, numFalsy, Option.getD_some,
            Bool.or_eq_false_iff, decide_eq_false_iff_not, not_lt,
            Option.some.injEq]
          constructor
          · rintro ⟨⟨⟨h1, h2⟩, h3⟩, h4⟩
            exact ⟨tokv, sidv, t, rfl, h1, rfl, h2, rfl, h3, h4⟩
          · rintro ⟨a, b, u, ha, h1, hb, h2, hu, h3, h4⟩
            subst ha; subst hb; subst hu
            exact ⟨⟨⟨h1, h2⟩, h3⟩, h4⟩
  · intro f now
    cases f with
    | none => simp [loadToken]
    | some c =>
      cases hexp : c.expiration with
      | none => simp [loadToken, hexp]
      | some e =>
        by_cases hlt : now + minutes5 < e
        · constructor
          · intro h0
            exact ⟨c, e, rfl, hexp, hlt⟩
          · intro h0
            simp [loadToken, hexp, hlt]
        · constructor
          · intro h0
            simp [loadToken, hexp, hlt] at h0
          · rintro ⟨c', e', hc, he, hlt'⟩
            exfalso
            injection hc with hc
            subst hc
            rw [hexp] at he
            injection he with he
            subst he
            exact hlt hlt'
  · intro file now w
    cases h : loadToken file now with
    | some c => simp [processVariant, h]
    | none =>
      cases hq : RequestLoginP1 now w with
      | error e => simp [processVariant, h, hq]
      | ok c => simp [processVariant, h, hq]

/-- C2: no cached state is updated on a failed login attempt.  In
`ubi-auth.ts`, a failing `getToken` leaves the in-memory fields untouched;
in `part_001`, a failing `RequestLogin` leaves the variant's file untouched,
and when the v2 attempt fails, `Login` saves nothing for either variant and
never even reaches the v3 step; a failing v3 attempt leaves the v3 file
untouched. -/
theorem C2_no_update_on_failure :
    (∀ (s : MgrState) (a : UbiAppId) (now : Int) (w : WireOutcome),
      isFailure (getToken s a now w).result = true → (getToken s a now w).state = s) ∧
    (∀ (file : Option Credential) (now : Int) (w : WireOutcome),
      isFailure (RequestLoginP1 now w) = true → (processVariant file now w).1 = file) ∧
    (∀ (env : LoginEnv) (now : Int),
      loadToken env.fileV2 now = none → isFailure (RequestLoginP1 now env.wireV2) = true →
        (LoginP1 env now).fileV2 = env.fileV2 ∧ (LoginP1 env now).fileV3 = env.fileV3 ∧
        (LoginP1 env now).callsV3 = 0) ∧
    (∀ (env : LoginEnv) (now : Int),
      isFailure (RequestLoginP1 now env.wireV3) = true →
        (LoginP1 env now).fileV3 = env.fileV3) := by
  refine ⟨?_, ?_, ?_, ?_⟩
  · intro s a now w h
    by_cases hr : shouldReauthenticate s now
    · cases hq : requestLogin w with
      | error e => simp [getToken, hr, hq]
      | ok c => simp [getToken, hr, hq, isFailure] at h
    · simp [getToken, hr]
  · intro file now w h
    cases hl : loadToken file now with
    | some c => simp [processVariant, hl]
    | none =>
      cases hq : RequestLoginP1 now w with
      | error e => simp [processVariant, hl, hq]
      | ok c => simp [hq, isFailure] at h
  · intro env now hl h
    cases hq : RequestLoginP1 now env.wireV2 with
    | error e => simp [LoginP1, processVariant, hl, hq]
    | ok c => simp [hq, isFailure] at h
  · intro env now h
    cases hl2 : loadToken env.fileV2 now with
    | some c =>
      cases hl3 : loadToken env.fileV3 now with
      | some c3 => simp [LoginP1, processVariant, hl2, hl3]
      | none =>
        cases hq3 : RequestLoginP1 now env.wireV3 with
        | error e => simp [LoginP1, processVariant, hl2, hl3, hq3]
        | ok c3 => simp [hq3, isFailure] at h
    | none =>
      cases hq2 : RequestLoginP1 now env.wireV2 with
      | error e => simp [LoginP1, processVariant, hl2, hq2]
      | ok c2 =>
        cases hl3 : loadToken env.fileV3 now with
        | some c3 => simp [LoginP1, processVariant, hl2, hq2, hl3]
        | none =>
          cases hq3 : RequestLoginP1 now env.wireV3 with
          | error e => simp [LoginP1, processVariant, hl2, hq2, hl3, hq3]
          | ok c3 => simp [hq3, isFailure] at h

/-- C2 witness: a 500 response updates neither the file (here holding a
concrete credential) nor anything else. -/
theorem C2_witness :
    (processVariant (some { ticket := "a", sessionId := "b", expiration := some 9 }) 0
      (.response { status := 500, sessionHeader := none, ticket := "x", expiration := none })).1
      = some { ticket := "a", sessionId := "b", expiration := some 9 } :=
  C2_no_update_on_failure.2.1
    (some { ticket := "a", sessionId := "b", expiration := some 9 }) 0
    (.response { status := 500, sessionHeader := none, ticket := "x", expiration := none })
    (by decide)

/-- C3: status-indexed error mapping on every non-2xx response, in both the
plain and the expiration-defaulting login variants: 401 → Unauthorized,
409 → ChallengeRequired, 429 → RateLimited, any other non-2xx status →
Unknown carrying that status. -/
theorem C3_error_mapping :
    ∀ (r : HttpResponse), is2xx r.status = false →
      requestLogin (.response r) = .error (mapStatus r.status) ∧
      (∀ now : Int, RequestLoginP1 now (.response r) = .error (mapStatus r.status)) ∧
      (mapStatus 401 = .unauthorized ∧ mapStatus 409 = .challengeRequired ∧
        mapStatus 429 = .rateLimited) ∧
      (r.status ≠ 401 → r.status ≠ 409 → r.status ≠ 429 →
        mapStatus r.status = .unknown r.status) := by
  intro r h
  refine ⟨?_, ?_, ⟨rfl, rfl, rfl⟩, ?_⟩
  · simp [requestLogin, h]
  · intro now
    simp [RequestLoginP1, h]
  · intro h1 h2 h3
    unfold mapStatus
    split <;> simp_all

/-- C3 witness: a 500 response maps to `Unknown 500` in both variants. -/
theorem C3_witness :
    requestLogin (.response { status := 500, sessionHeader := none, ticket := "x", expiration := none }) = .error (.unknown 500) ∧
    RequestLoginP1 7 (.response { status := 500, sessionHeader := none, ticket := "x", expiration := none }) = .error (.unknown 500) := by
  have h := C3_error_mapping
    { status := 500, sessionHeader := none, ticket := "x", expiration := none } (by decide)
  exact ⟨h.1, h.2.1 7⟩

/-- C4 counterexample: a 401 response that lacks the `Ubi-SessionId` header
fails with `Unauthorized`, not `ProtocolViolation` — on a non-2xx status the
catch block's status mapping runs and the header is never inspected, so the
claimed "regardless of the HTTP status" is false. -/
theorem C4_counterexample :
    requestLogin (.response { status := 401, sessionHeader := none, ticket := "t", expiration := none }) = .error .unauthorized ∧
    UbiError.unauthorized ≠ UbiError.protocolViolation := by
  exact ⟨rfl, by decide⟩

/-- C4 (amended): only on a resolved 2xx response is the session-identifier
header inspected; a missing (or empty, hence falsy) header then fails with
`ProtocolViolation`, in both login variants.  On a non-2xx response the
status mapping of C3 applies regardless of the header. -/
theorem C4_missing_header :
    ∀ (r : HttpResponse),
      (is2xx r.status = true → (r.sessionHeader = none ∨ r.sessionHeader = some "") →
        requestLogin (.response r) = .error .protocolViolation ∧
        ∀ now : Int, RequestLoginP1 now (.response r) = .error .protocolViolation) ∧
      (is2xx r.status = false →
        requestLogin (.response r) = .error (mapStatus r.status)) := by
  intro r
  constructor
  · intro h2 hh
    cases hh with
    | inl hn => exact ⟨by simp [requestLogin, h2, hn], fun now => by simp [RequestLoginP1, h2, hn]⟩
    | inr he => exact ⟨by simp [requestLogin, h2, he], fun now => by simp [RequestLoginP1, h2, he]⟩
  · intro h2
    simp [requestLogin, h2]

/-- C4 witness: a 200 response without the header yields `ProtocolViolation`. -/
theorem C4_witness :
    requestLogin (.response { status := 200, sessionHeader := none, ticket := "t", expiration := none }) = .error .protocolViolation :=
  ((C4_missing_header { status := 200, sessionHeader := none, ticket := "t", expiration := none }).1 (by decide) (Or.inl rfl)).1

/-- C5: with a valid cached credential, `getToken` performs zero remote
calls, leaves the state unchanged, and a second immediate call (same `now`,
any app ids, any wire environments) again performs zero remote calls and
returns the same (token, sessionId) pair. -/
theorem C5_cached_idempotent :
    ∀ (s : MgrState) (a1 a2 : UbiAppId) (now : Int) (w1 w2 : WireOutcome),
      shouldReauthenticate s now = false →
      (getToken s a1 now w1).remoteCalls = 0 ∧
      (getToken (getToken s a1 now w1).state a2 now w2).remoteCalls = 0 ∧
      (getToken (getToken s a1 now w1).state a2 now w2).result
        = (getToken s a1 now w1).result ∧
      (getToken s a1 now w1).result = .ok (s.token.getD "", s.sessionId.getD "") := by
  intro s a1 a2 now w1 w2 h
  simp [getToken, h]

/-- C5 witness: a concrete fresh credential cached at time 100, queried
twice at time 200. -/
theorem C5_witness :
    (getToken { token := some "tok", sessionId := some "sid", lastLoginTime := some 100, lastAppId := some .v2 } .v2 200 .networkError).remoteCalls = 0 ∧
    (getToken (getToken { token := some "tok", sessionId := some "sid", lastLoginTime := some 100, lastAppId := some .v2 } .v2 200 .networkError).state .v3 200 .networkError).remoteCalls = 0 := by
  have h := C5_cached_idempotent
    { token := some "tok", sessionId := some "sid", lastLoginTime := some 100, lastAppId := some .v2 } .v2 .v3 200 .networkError .networkError (by decide)
  exact ⟨h.1, h.2.1⟩

/-- C6 counterexample: in the `part_001` `Login`, a 401 failure of the v2
request is caught by the `try`/`catch`, logged via `console.error`, and
nothing is thrown to `Login`'s caller — the failure is swallowed, not
propagated. -/
theorem C6_counterexample :
    (LoginP1 { fileV2 := none, fileV3 := none, wireV2 := .response { status := 401, sessionHeader := none, ticket := "", expiration := none }, wireV3 := .networkError } 0).consoleError = some .unauthorized ∧
    (LoginP1 { fileV2 := none, fileV3 := none, wireV2 := .response { status := 401, sessionHeader := none, ticket := "", expiration := none }, wireV3 := .networkError } 0).thrown = none := by
  exact ⟨rfl, rfl⟩

/-- C6 (amended): in `ubi-auth.ts`, a failing `requestLogin` propagates
unchanged (and unretried) to the caller of `getToken` as the typed error.
In the `part_001` `Login`, a failure aborts the remaining variant, is
logged by the `catch` block, and is never rethrown: `Login` always returns
normally, whatever happened. -/
theorem C6_propagation :
    (∀ (s : MgrState) (a : UbiAppId) (now : Int) (w : WireOutcome) (e : UbiError),
      shouldReauthenticate s now = true → requestLogin w = .error e →
        (getToken s a now w).result = .error e) ∧
    (∀ (env : LoginEnv) (now : Int) (e : UbiError),
      loadToken env.fileV2 now = none → RequestLoginP1 now env.wireV2 = .error e →
        (LoginP1 env now).consoleError = some e ∧ (LoginP1 env now).thrown = none ∧
        (LoginP1 env now).callsV3 = 0) ∧
    (∀ (env : LoginEnv) (now : Int), (LoginP1 env now).thrown = none) := by
  refine ⟨?_, ?_, ?_⟩
  · intro s a now w e hr hq
    simp [getToken, hr, hq]
  · intro env now e hl hq
    simp [LoginP1, processVariant, hl, hq]
  · intro env now
    cases h : (processVariant env.fileV2 now env.wireV2).2.2 with
    | some e => simp [LoginP1, h]
    | none => simp [LoginP1, h]

/-- C6 witness: instantiating the propagation theorem at a concrete 429
failure of `getToken` and a concrete 409 failure of `Login`. -/
theorem C6_witness :
    (getToken { token := none, sessionId := none, lastLoginTime := none, lastAppId := none } .v2 0 (.response { status := 429, sessionHeader := none, ticket := "", expiration := none })).result = .error .rateLimited ∧
    (LoginP1 { fileV2 := none, fileV3 := none, wireV2 := .response { status := 409, sessionHeader := none, ticket := "", expiration := none }, wireV3 := .networkError } 5).consoleError = some .challengeRequired := by
  constructor
  · exact C6_propagation.1
      { token := none, sessionId := none, lastLoginTime := none, lastAppId := none }
      .v2 0
      (.response { status := 429, sessionHeader := none, ticket := "", expiration := none })
      .rateLimited (by decide) rfl
  · exact (C6_propagation.2.1 { fileV2 := none, fileV3 := none, wireV2 := .response { status := 409, sessionHeader := none, ticket := "", expiration := none }, wireV3 := .networkError } 5 .challengeRequired rfl rfl).1

/-- C7 counterexample: saving a credential that carries no expiration and
loading it back yields `null`, not the saved credential — `loadToken`
filters by validity, so the round trip is not the identity. -/
theorem C7_counterexample :
    loadToken (saveToken none { ticket := "t", sessionId := "s", expiration := none }) 0 = none ∧
    (none : Option Credential) ≠ some { ticket := "t", sessionId := "s", expiration := none } := by
  exact ⟨rfl, by decide⟩

/-- C7 (amended): save-then-load reproduces the identical credential
(token, sessionId and expiration) provided the saved credential carries an
expiration more than 5 minutes after the load-time `now`; otherwise
`loadToken` yields `null`.  In particular the load never yields a
credential different from the saved one. -/
theorem C7_roundtrip :
    ∀ (f : Option Credential) (c : Credential) (now : Int),
      ((∃ e, c.expiration = some e ∧ now + minutes5 < e) →
        loadToken (saveToken f c) now = some c) ∧
      (loadToken (saveToken f c) now = none ∨ loadToken (saveToken f c) now = some c) := by
  intro f c now
  constructor
  · rintro ⟨e, he, hlt⟩
    simp [saveToken, loadToken, he, hlt]
  · cases hexp : c.expiration with
    | none => exact Or.inl (by simp [saveToken, loadToken, hexp])
    | some e =>
      by_cases hlt : now + minutes5 < e
      · exact Or.inr (by simp [saveToken, loadToken, hexp, hlt])
      · exact Or.inl (by simp [saveToken, loadToken, hexp, hlt])

/-- C7 witness: a credential expiring far after the load time round-trips
identically. -/
theorem C7_witness :
    loadToken (saveToken none { ticket := "t", sessionId := "s", expiration := some 1000000 }) 0 = some { ticket := "t", sessionId := "s", expiration := some 1000000 } :=
  (C7_roundtrip none { ticket := "t", sessionId := "s", expiration := some 1000000 } 0).1
    ⟨1000000, rfl, by decide⟩

/-- C8 counterexample: cached credential expired one second ago
(`expiration = 999000`, `now = 1000000`).  `Login`'s step for that variant
does issue exactly one remote call, but when the 2xx response itself
carries a server-provided expiration of `998000`, the returned credential's
expiration (998000) is NOT strictly greater than the previous one (999000)
— the code passes the server value through unchecked. -/
theorem C8_counterexample :
    (processVariant (some { ticket := "t", sessionId := "s", expiration := some 999000 }) 1000000 (.response { status := 200, sessionHeader := some "sid2", ticket := "u", expiration := some 998000 })).2.1 = 1 ∧
    RequestLoginP1 1000000 (.response { status := 200, sessionHeader := some "sid2", ticket := "u", expiration := some 998000 }) = .ok { ticket := "u", sessionId := "sid2", expiration := some 998000 } ∧
    ¬ ((999000 : Int) < 998000) := by
  refine ⟨rfl, rfl, by decide⟩

/-- C8 (amended): a cached credential whose expiration is in the past
(`expiration ≤ now`) triggers exactly one remote login for that variant,
whose successful result is saved; the returned credential's expiration is
the server-provided value when the response carries one (with no
guaranteed relation to the old expiration), and the fabricated
`now + 30 min` — which IS strictly greater than the old expiration — when
the response omits it. -/
theorem C8_refresh_on_expiry :
    ∀ (old : Credential) (eOld now : Int) (r : HttpResponse) (c : Credential),
      old.expiration = some eOld → eOld ≤ now →
      (processVariant (some old) now (.response r)).2.1 = 1 ∧
      (RequestLoginP1 now (.response r) = .ok c →
        (processVariant (some old) now (.response r)).1 = some c ∧
        c.expiration = some (r.expiration.getD (now + minutes30)) ∧
        (r.expiration = none → eOld < now + minutes30)) := by
  intro old eOld now r c hexp hle
  have h5 : minutes5 = 300000 := by norm_num [minutes5]
  have hnl : ¬ (now + minutes5 < eOld) := by rw [h5]; omega
  have hload : loadToken (some old) now = none := by
    simp [loadToken, hexp, hnl]
  constructor
  · cases hq : RequestLoginP1 now (.response r) with
    | error e => simp [processVariant, hload, hq]
    | ok c0 => simp [processVariant, hload, hq]
  · intro hok
    have hshape := requestLoginP1_ok now r c hok
    refine ⟨by simp [processVariant, hload, hok, saveToken], hshape.2.2.2, ?_⟩
    intro hre
    have h30 : minutes30 = 1800000 := by norm_num [minutes30]
    rw [h30]
    omega

/-- C8 witness: expiration one second in the past at `now = 0`, a 2xx
response without a server expiration: one remote call, default applies. -/
theorem C8_witness :
    (processVariant (some { ticket := "t", sessionId := "s", expiration := some (-1000) }) 0 (.response { status := 200, sessionHeader := some "sid", ticket := "u", expiration := none })).2.1 = 1 :=
  (C8_refresh_on_expiry { ticket := "t", sessionId := "s", expiration := some (-1000) }
    (-1000) 0 { status := 200, sessionHeader := some "sid", ticket := "u", expiration := none }
    { ticket := "u", sessionId := "sid", expiration := some 1800000 } rfl (by decide)).1

/-- C9 counterexample: starting from an empty manager, `getToken(v2)` logs
in and caches; an immediately following `getToken(v3)` issues zero remote
calls and returns the very pair obtained with the v2 application
identifier — the in-memory cache is a single slot shared across variants,
not keyed by variant. -/
theorem C9_counterexample :
    (getToken (getToken { token := none, sessionId := none, lastLoginTime := none, lastAppId := none } .v2 1000 (.response { status := 200, sessionHeader := some "sidA", ticket := "tokA", expiration := none })).state .v3 1001 .networkError).remoteCalls = 0 ∧
    (getToken (getToken { token := none, sessionId := none, lastLoginTime := none, lastAppId := none } .v2 1000 (.response { status := 200, sessionHeader := some "sidA", ticket := "tokA", expiration := none })).state .v3 1001 .networkError).result = .ok ("tokA", "sidA") ∧
    (getToken (getToken { token := none, sessionId := none, lastLoginTime := none, lastAppId := none } .v2 1000 (.response { status := 200, sessionHeader := some "sidA", ticket := "tokA", expiration := none })).state .v3 1001 .networkError).state.lastAppId = some .v2 ∧
    some UbiAppId.v2 ≠ some UbiAppId.v3 := by
  refine ⟨rfl, rfl, rfl, by decide⟩

/-- C9 (amended): the component keeps a single in-memory credential slot
shared by all variants.  While the slot is valid, `getToken(variant)`
returns its pair unchanged whatever variant is asked (so the pair may stem
from a login made with a different variant's identifier); a refresh
overwrites the whole slot with the new login's data, keyed by nothing. -/
theorem C9_single_slot :
    ∀ (s : MgrState) (a : UbiAppId) (now : Int) (w : WireOutcome),
      (shouldReauthenticate s now = false →
        (getToken s a now w).state = s ∧
        (getToken s a now w).result = .ok (s.token.getD "", s.sessionId.getD "")) ∧
      (∀ c, shouldReauthenticate s now = true → requestLogin w = .ok c →
        (getToken s a now w).state = { token := some c.ticket, sessionId := some c.sessionId, lastLoginTime := some now, lastAppId := some a }) := by
  intro s a now w
  constructor
  · intro h
    simp [getToken, h]
  · intro c h hq
    simp [getToken, h, hq]

/-- C9 witness: a fresh manager refreshed at time 0 with a concrete 2xx
response ends up holding exactly that login's data. -/
theorem C9_witness :
    (getToken { token := none, sessionId := none, lastLoginTime := none, lastAppId := none } .v2 0 (.response { status := 200, sessionHeader := some "sid", ticket := "tok", expiration := none })).state = { token := some "tok", sessionId := some "sid", lastLoginTime := some 0, lastAppId := some .v2 } :=
  (C9_single_slot { token := none, sessionId := none, lastLoginTime := none, lastAppId := none }
    .v2 0 (.response { status := 200, sessionHeader := some "sid", ticket := "tok", expiration := none })).2
    { ticket := "tok", sessionId := "sid", expiration := none } rfl rfl

/-- C10: in the expiration-defaulting variant, every successful
`RequestLogin` yields a credential whose expiration is set: the
server-provided value when the response carries one, else exactly
`now + 30 minutes`; and the variant's `Login` step only ever persists such
credentials (the file is otherwise left unchanged). -/
theorem C10_expiration_always_set :
    (∀ (now : Int) (w : WireOutcome) (c : Credential),
      RequestLoginP1 now w = .ok c →
        c.expiration.isSome = true ∧
        ∀ r, w = .response r → c.expiration = some (r.expiration.getD (now + minutes30))) ∧
    (∀ (file : Option Credential) (now : Int) (w : WireOutcome),
      (processVariant file now w).1 = file ∨
        ∃ c, RequestLoginP1 now w = .ok c ∧ (processVariant file now w).1 = some c ∧
          c.expiration.isSome = true) := by
  constructor
  · intro now w c hok
    cases w with
    | networkError => simp [RequestLoginP1] at hok
    | response r =>
      have h := requestLoginP1_ok now r c hok
      refine ⟨by rw [h.2.2.2]; rfl, ?_⟩
      intro r2 hr2
      injection hr2 with hr2
      subst hr2
      exact h.2.2.2
  · intro file now w
    cases hl : loadToken file now with
    | some c => exact Or.inl (by simp [processVariant, hl])
    | none =>
      cases hq : RequestLoginP1 now w with
      | error e => exact Or.inl (by simp [processVariant, hl, hq])
      | ok c =>
        refine Or.inr ⟨c, rfl, by simp [processVariant, hl, hq, saveToken], ?_⟩
        cases w with
        | networkError => simp [RequestLoginP1] at hq
        | response r =>
          have h := requestLoginP1_ok now r c hq
          rw [h.2.2.2]
          rfl

/-- C10 witness: a 2xx response without a server expiration yields a
credential whose expiration is set (to `now + 30 min`). -/
theorem C10_witness :
    ({ ticket := "u", sessionId := "sid", expiration := some 1800000 } : Credential).expiration.isSome = true :=
  (C10_expiration_always_set.1 0
    (.response { status := 200, sessionHeader := some "sid", ticket := "u", expiration := none })
    { ticket := "u", sessionId := "sid", expiration := some 1800000 } rfl).1

end R6API
